import Mathlib

/-!
Shallow embedding of the patient-prioritization core:
`DistanceCalculator`, `ScoringService` and `GetPrioritizedPatients`.

JavaScript `number` arithmetic is modelled by exact real arithmetic over `ℝ`.
`Math.sqrt`, which returns NaN on negative input, is modelled twice: once as
the total `Real.sqrt` (used by the scoring pipeline) and once as the partial
`chkSqrt : ℝ → Option ℝ` (`none` standing for NaN), used to settle the
NaN-related claims; a bridging theorem shows the two agree on every input the
haversine formula can produce.  `Math.random()` results are passed in
explicitly as a parameter `r`, and `Number(x.toFixed(2))` is modelled by
`round2` (round half-up to two decimal places, exact arithmetic).
-/

noncomputable section

open Real

structure Location where
  latitude : ℝ
  longitude : ℝ

structure Patient where
  id : String
  name : String
  location : Location
  age : ℝ
  acceptedOffers : ℝ
  canceledOffers : ℝ
  averageReplyTime : ℝ

structure ScoredPatient where
  id : String
  name : String
  location : Location
  age : ℝ
  acceptedOffers : ℝ
  canceledOffers : ℝ
  averageReplyTime : ℝ
  score : ℝ
  distance : ℝ
  demographicScore : ℝ
  behavioralScore : ℝ

structure DemographicWeights where
  age : ℝ
  distance : ℝ

structure BehavioralWeights where
  acceptedOffers : ℝ
  canceledOffers : ℝ
  averageReplyTime : ℝ

structure Weights where
  demographic : DemographicWeights
  behavioral : BehavioralWeights

structure RandomnessConfig where
  enabled : Bool
  maxBoost : ℝ
  lowDataThreshold : ℝ

structure ScoringConfig where
  weights : Weights
  randomnessConfig : RandomnessConfig

/-- The default `ScoringConfig` built in the `ScoringService` constructor. -/
def defaultConfig : ScoringConfig :=
  { weights :=
      { demographic := { age := 0.1, distance := 0.1 }
        behavioral := { acceptedOffers := 0.3, canceledOffers := 0.3, averageReplyTime := 0.2 } }
    randomnessConfig := { enabled := true, maxBoost := 0.2, lowDataThreshold := 20 } }

namespace DistanceCalculator

def EARTH_RADIUS_KM : ℝ := 6371

def toRadians (degrees : ℝ) : ℝ := degrees * (π / 180)

/-- JavaScript `Math.atan2(y, x)` on non-NaN inputs. -/
def atan2 (y x : ℝ) : ℝ :=
  if 0 < x then arctan (y / x)
  else if x < 0 then
    (if 0 ≤ y then arctan (y / x) + π else arctan (y / x) - π)
  else
    (if 0 < y then π / 2 else if y < 0 then -(π / 2) else 0)

/-- The intermediate value `a` of the haversine formula in `calculate`. -/
def haverA (point1 point2 : Location) : ℝ :=
  let lat1Rad := toRadians point1.latitude
  let lat2Rad := toRadians point2.latitude
  let deltaLat := toRadians (point2.latitude - point1.latitude)
  let deltaLon := toRadians (point2.longitude - point1.longitude)
  Real.sin (deltaLat / 2) * Real.sin (deltaLat / 2) +
    Real.cos lat1Rad * Real.cos lat2Rad *
      (Real.sin (deltaLon / 2) * Real.sin (deltaLon / 2))

/-- `DistanceCalculator.calculate`, with `Math.sqrt` modelled by the total
`Real.sqrt` (legitimate because `0 ≤ haverA ≤ 1`, proved below). -/
def calculate (point1 point2 : Location) : ℝ :=
  let a := haverA point1 point2
  let c := 2 * atan2 (Real.sqrt a) (Real.sqrt (1 - a))
  EARTH_RADIUS_KM * c

/-- `Math.sqrt` with NaN tracked as `none`. -/
def chkSqrt (x : ℝ) : Option ℝ := if x < 0 then none else some (Real.sqrt x)

/-- `DistanceCalculator.calculate` with NaN propagation tracked: the result is
`none` exactly when one of the two square roots receives a negative argument
(the only NaN source in the function for non-NaN numeric inputs). -/
def calculateChk (point1 point2 : Location) : Option ℝ :=
  let a := haverA point1 point2
  match chkSqrt a, chkSqrt (1 - a) with
  | some sa, some sb => some (EARTH_RADIUS_KM * (2 * atan2 sa sb))
  | _, _ => none

end DistanceCalculator

namespace ScoringService

/-- `Number(x.toFixed(2))`: round half-up to two decimal places. -/
def round2 (x : ℝ) : ℝ := (round (x * 100) : ℝ) / 100

def calculateAgeScore (age : ℝ) : ℝ :=
  if age < 30 then 6 + (age / 30) * 2
  else if age ≤ 65 then 10
  else 10 - ((age - 65) / 35) * 3

def calculateDistanceScore (distanceKm : ℝ) : ℝ :=
  if distanceKm ≤ 10 then 10
  else if distanceKm ≤ 25 then 9
  else if distanceKm ≤ 50 then 7
  else if distanceKm ≤ 100 then 5
  else 3

def calculateAcceptanceRateScore (patient : Patient) : ℝ :=
  let totalOffers := patient.acceptedOffers + patient.canceledOffers
  if totalOffers < 5 then 5
  else (patient.acceptedOffers / totalOffers) * 10

def calculateResponseTimeScore (avgReplyTimeSeconds : ℝ) : ℝ :=
  if avgReplyTimeSeconds ≤ 300 then 10
  else if avgReplyTimeSeconds ≤ 900 then 8
  else if avgReplyTimeSeconds ≤ 1800 then 6
  else if avgReplyTimeSeconds ≤ 3600 then 4
  else 2

/-- `applyRandomnessBoost`; `r` is the value drawn by `Math.random()`. -/
def applyRandomnessBoost (config : ScoringConfig) (r : ℝ) (patient : Patient)
    (currentScore : ℝ) : ℝ :=
  let totalInteractions := patient.acceptedOffers + patient.canceledOffers
  if totalInteractions < config.randomnessConfig.lowDataThreshold then
    currentScore + r * config.randomnessConfig.maxBoost * 10
  else currentScore

/-- `ScoringService.calculateScore`; the service's config and the
`Math.random()` draw are explicit parameters. -/
def calculateScore (config : ScoringConfig) (r : ℝ) (patient : Patient)
    (facilityLocation : Location) : ScoredPatient :=
  let distance := DistanceCalculator.calculate patient.location facilityLocation
  let ageScore := calculateAgeScore patient.age
  let distanceScore := calculateDistanceScore distance
  let acceptanceRateScore := calculateAcceptanceRateScore patient
  let responseTimeScore := calculateResponseTimeScore patient.averageReplyTime
  let demographicScore :=
    (ageScore * config.weights.demographic.age +
        distanceScore * config.weights.demographic.distance) /
      (config.weights.demographic.age + config.weights.demographic.distance)
  let totalBehavioralWeight :=
    config.weights.behavioral.acceptedOffers +
      config.weights.behavioral.canceledOffers +
      config.weights.behavioral.averageReplyTime
  let behavioralScore :=
    (acceptanceRateScore *
        (config.weights.behavioral.acceptedOffers +
          config.weights.behavioral.canceledOffers) +
        responseTimeScore * config.weights.behavioral.averageReplyTime) /
      totalBehavioralWeight
  let finalScore0 := demographicScore * 0.2 + behavioralScore * 0.8
  let finalScore1 :=
    if config.randomnessConfig.enabled then
      applyRandomnessBoost config r patient finalScore0
    else finalScore0
  let finalScore := max 1 (min 10 finalScore1)
  { id := patient.id
    name := patient.name
    location := patient.location
    age := patient.age
    acceptedOffers := patient.acceptedOffers
    canceledOffers := patient.canceledOffers
    averageReplyTime := patient.averageReplyTime
    score := round2 finalScore
    distance := round2 distance
    demographicScore := round2 demographicScore
    behavioralScore := round2 behavioralScore }

end ScoringService

structure PrioritizedPatientDTO where
  id : String
  name : String
  score : ℝ
  distance : ℝ
  demographicScore : ℝ
  behavioralScore : ℝ

namespace GetPrioritizedPatients

/-- Projection of a `ScoredPatient` to the response DTO (`patient.distance || 0`
collapses to the stored distance, which is always present in the model). -/
def toDTO (patient : ScoredPatient) : PrioritizedPatientDTO :=
  { id := patient.id
    name := patient.name
    score := patient.score
    distance := patient.distance
    demographicScore := patient.demographicScore
    behavioralScore := patient.behavioralScore }

/-- `GetPrioritizedPatients.execute` on the candidate list returned by the
repository; `rs i` is the `Math.random()` draw consumed while scoring the
`i`-th patient.  `Array.prototype.sort` with comparator
`(a, b) => b.score - a.score` is the stable descending sort by score. -/
def execute (config : ScoringConfig) (rs : ℕ → ℝ) (patients : List Patient)
    (facilityLocation : Location) : List PrioritizedPatientDTO :=
  let scoredPatients :=
    patients.mapIdx fun i p => ScoringService.calculateScore config (rs i) p facilityLocation
  let sorted := scoredPatients.mergeSort fun a b => b.score ≤ a.score
  let topPatients := sorted.take 10
  topPatients.map toDTO

/-- `InMemoryPatientRepository.findAll` over an explicit repository state:
returns a copy of the stored list and leaves the state unchanged. -/
def findAll (state : List Patient) : List Patient × List Patient := (state, state)

/-- `execute` with the repository state threaded explicitly: the first
component is the repository state after the call. -/
def executeSt (config : ScoringConfig) (rs : ℕ → ℝ) (state : List Patient)
    (facilityLocation : Location) : List Patient × List PrioritizedPatientDTO :=
  let fetched := findAll state
  (fetched.1, execute config rs fetched.2 facilityLocation)

end GetPrioritizedPatients

/-- A config with the default weight split 0.3/0.3 and randomness disabled. -/
def canceledSplitConfigA : ScoringConfig :=
  ⟨⟨⟨0.1, 0.1⟩, ⟨0.3, 0.3, 0.2⟩⟩, ⟨false, 0.2, 20⟩⟩

/-- The same config with the behavioral mass split 0.4/0.2 instead. -/
def canceledSplitConfigB : ScoringConfig :=
  ⟨⟨⟨0.1, 0.1⟩, ⟨0.4, 0.2, 0.2⟩⟩, ⟨false, 0.2, 20⟩⟩

/-! ### Helper lemmas -/

namespace ScoringService

lemma round2_le_round2 {x y : ℝ} (h : x ≤ y) : round2 x ≤ round2 y := by
  unfold round2
  have hr : round (x * 100) ≤ round (y * 100) := by
    rw [round_eq, round_eq]
    exact Int.floor_mono (by linarith)
  have hc : ((round (x * 100) : ℤ) : ℝ) ≤ ((round (y * 100) : ℤ) : ℝ) := by exact_mod_cast hr
  linarith

lemma round2_one : round2 1 = 1 := by
  unfold round2
  rw [round_eq]
  norm_num

lemma round2_ten : round2 10 = 10 := by
  unfold round2
  rw [round_eq]
  norm_num

lemma clamped_round2_bounds (x : ℝ) :
    1 ≤ round2 (max 1 (min 10 x)) ∧ round2 (max 1 (min 10 x)) ≤ 10 := by
  have h1 : (1 : ℝ) ≤ max 1 (min 10 x) := le_max_left _ _
  have h2 : max 1 (min 10 x) ≤ 10 := max_le (by norm_num) (min_le_left _ _)
  constructor
  · calc (1 : ℝ) = round2 1 := round2_one.symm
      _ ≤ round2 (max 1 (min 10 x)) := round2_le_round2 h1
  · calc round2 (max 1 (min 10 x)) ≤ round2 10 := round2_le_round2 h2
      _ = 10 := round2_ten

lemma calculateAgeScore_le_ten (age : ℝ) : calculateAgeScore age ≤ 10 := by
  unfold calculateAgeScore
  split_ifs with h1 h2
  · linarith
  · exact le_rfl
  · push_neg at h1 h2
    linarith

lemma calculateDistanceScore_bounds (d : ℝ) :
    3 ≤ calculateDistanceScore d ∧ calculateDistanceScore d ≤ 10 := by
  unfold calculateDistanceScore
  split_ifs <;> norm_num

lemma calculateResponseTimeScore_bounds (t : ℝ) :
    2 ≤ calculateResponseTimeScore t ∧ calculateResponseTimeScore t ≤ 10 := by
  unfold calculateResponseTimeScore
  split_ifs <;> norm_num

lemma calculateAcceptanceRateScore_bounds (p : Patient)
    (ha : 0 ≤ p.acceptedOffers) (hc : 0 ≤ p.canceledOffers) :
    0 ≤ calculateAcceptanceRateScore p ∧ calculateAcceptanceRateScore p ≤ 10 := by
  simp only [calculateAcceptanceRateScore]
  split_ifs with h
  · norm_num
  · push_neg at h
    have htot : (0 : ℝ) < p.acceptedOffers + p.canceledOffers := by linarith
    constructor
    · exact mul_nonneg (div_nonneg ha htot.le) (by norm_num)
    · have hle : p.acceptedOffers / (p.acceptedOffers + p.canceledOffers) ≤ 1 :=
        div_le_one_of_le₀ (by linarith) htot.le
      linarith

end ScoringService

/-! ### Claims -/

/-- C1: for every patient (any numeric field values), facility coordinate,
config and random draw, the `score` field of the `ScoredPatient` returned by
`ScoringService.calculateScore` satisfies `1 ≤ score ≤ 10`: the final score is
clamped to [1,10] after all adjustments, including the random fairness boost,
and rounding to two decimals preserves the bounds. -/
theorem C1_final_score_clamped (config : ScoringConfig) (r : ℝ)
    (patient : Patient) (facilityLocation : Location) :
    1 ≤ (ScoringService.calculateScore config r patient facilityLocation).score ∧
      (ScoringService.calculateScore config r patient facilityLocation).score ≤ 10 := by
  simp only [ScoringService.calculateScore]
  exact ScoringService.clamped_round2_bounds _

/-- C3: `calculateScore` is deterministic whenever the random boost cannot
engage: if the patient's total interactions reach the config's
`lowDataThreshold`, or randomness is disabled in the config, two calls with
different `Math.random()` draws return identical `ScoredPatient`s. -/
theorem C3_no_randomness_scoring_deterministic (config : ScoringConfig) (r1 r2 : ℝ)
    (p : Patient) (fac : Location)
    (h : config.randomnessConfig.lowDataThreshold ≤ p.acceptedOffers + p.canceledOffers ∨
      config.randomnessConfig.enabled = false) :
    ScoringService.calculateScore config r1 p fac =
      ScoringService.calculateScore config r2 p fac := by
  simp only [ScoringService.calculateScore, ScoringService.applyRandomnessBoost]
  split_ifs with h1 h2
  · exfalso
    rcases h with h | h
    · exact absurd h2 (not_lt.mpr h)
    · rw [h] at h1
      exact Bool.false_ne_true h1
  · rfl
  · rfl

/-- C3 witness: a patient with 50 accepted and 50 canceled offers (100 ≥ 20,
the default threshold) gets the same score from draws 0 and 1/2. -/
theorem C3_no_randomness_scoring_deterministic_witness :
    defaultConfig.randomnessConfig.lowDataThreshold ≤
        (Patient.mk "p1" "Pat" ⟨0, 0⟩ 45 50 50 600).acceptedOffers +
          (Patient.mk "p1" "Pat" ⟨0, 0⟩ 45 50 50 600).canceledOffers ∧
      ScoringService.calculateScore defaultConfig 0
          (Patient.mk "p1" "Pat" ⟨0, 0⟩ 45 50 50 600) ⟨0, 0⟩ =
        ScoringService.calculateScore defaultConfig (1/2)
          (Patient.mk "p1" "Pat" ⟨0, 0⟩ 45 50 50 600) ⟨0, 0⟩ :=
  ⟨by norm_num [defaultConfig],
    C3_no_randomness_scoring_deterministic defaultConfig 0 (1/2) _ _
      (Or.inl (by norm_num [defaultConfig]))⟩

/-- C8: the canceled-offers weight is not an independent signal.  Two configs
agreeing on the sum accepted-weight + canceled-weight, on the reply-time
weight and on the demographic weights, both with randomness disabled, produce
identical `ScoredPatient`s for every patient and facility location. -/
theorem C8_canceled_weight_not_independent (cfg1 cfg2 : ScoringConfig) (r : ℝ)
    (p : Patient) (fac : Location)
    (hsum : cfg1.weights.behavioral.acceptedOffers + cfg1.weights.behavioral.canceledOffers =
      cfg2.weights.behavioral.acceptedOffers + cfg2.weights.behavioral.canceledOffers)
    (hreply : cfg1.weights.behavioral.averageReplyTime = cfg2.weights.behavioral.averageReplyTime)
    (hage : cfg1.weights.demographic.age = cfg2.weights.demographic.age)
    (hdst : cfg1.weights.demographic.distance = cfg2.weights.demographic.distance)
    (hr1 : cfg1.randomnessConfig.enabled = false)
    (hr2 : cfg2.randomnessConfig.enabled = false) :
    ScoringService.calculateScore cfg1 r p fac =
      ScoringService.calculateScore cfg2 r p fac := by
  simp only [ScoringService.calculateScore, hr1, hr2, Bool.false_eq_true, if_false,
    hsum, hreply, hage, hdst]

/-- C8 witness: splitting the behavioral mass 0.3/0.3 versus 0.4/0.2 between
accepted and canceled weights does not change any score. -/
theorem C8_canceled_weight_not_independent_witness :
    canceledSplitConfigA.weights.behavioral.acceptedOffers +
          canceledSplitConfigA.weights.behavioral.canceledOffers =
        canceledSplitConfigB.weights.behavioral.acceptedOffers +
          canceledSplitConfigB.weights.behavioral.canceledOffers ∧
      canceledSplitConfigA.weights.behavioral.averageReplyTime =
        canceledSplitConfigB.weights.behavioral.averageReplyTime ∧
      canceledSplitConfigA.weights.demographic.age =
        canceledSplitConfigB.weights.demographic.age ∧
      canceledSplitConfigA.weights.demographic.distance =
        canceledSplitConfigB.weights.demographic.distance ∧
      canceledSplitConfigA.randomnessConfig.enabled = false ∧
      canceledSplitConfigB.randomnessConfig.enabled = false ∧
      ScoringService.calculateScore canceledSplitConfigA (1/2)
          (Patient.mk "p2" "Pat" ⟨10, 20⟩ 40 8 2 600) ⟨0, 0⟩ =
        ScoringService.calculateScore canceledSplitConfigB (1/2)
          (Patient.mk "p2" "Pat" ⟨10, 20⟩ 40 8 2 600) ⟨0, 0⟩ :=
  ⟨by norm_num [canceledSplitConfigA, canceledSplitConfigB], rfl, rfl, rfl, rfl, rfl,
    C8_canceled_weight_not_independent canceledSplitConfigA canceledSplitConfigB (1/2) _ _
      (by norm_num [canceledSplitConfigA, canceledSplitConfigB]) rfl rfl rfl rfl rfl⟩

/-- C10: with `0 ≤ r < 1` and a non-negative `maxBoost`, the reported score
with randomness enabled is at least the score with randomness disabled, for
the same draw `r`: the boost is additive and non-negative, and the clamp to
[1,10] and the rounding to two decimals are monotone. -/
theorem C10_boost_never_lowers_score (cfg : ScoringConfig) (r : ℝ) (p : Patient)
    (fac : Location) (hr0 : 0 ≤ r) (_hrlt : r < 1)
    (hb : 0 ≤ cfg.randomnessConfig.maxBoost) :
    (ScoringService.calculateScore
        { cfg with randomnessConfig := { cfg.randomnessConfig with enabled := false } }
        r p fac).score ≤
      (ScoringService.calculateScore
        { cfg with randomnessConfig := { cfg.randomnessConfig with enabled := true } }
        r p fac).score := by
  simp only [ScoringService.calculateScore, ScoringService.applyRandomnessBoost,
    Bool.false_eq_true, if_false, if_true]
  apply ScoringService.round2_le_round2
  apply max_le_max le_rfl
  apply min_le_min le_rfl
  split_ifs with h
  · have hq : (0:ℝ) ≤ r * cfg.randomnessConfig.maxBoost * 10 :=
      mul_nonneg (mul_nonneg hr0 hb) (by norm_num)
    linarith
  · exact le_rfl

/-- C10 witness: for the default config, the draw 1/2 and a low-history
patient, enabling randomness does not lower the reported score. -/
theorem C10_boost_never_lowers_score_witness :
    (0 : ℝ) ≤ 1/2 ∧ (1 : ℝ)/2 < 1 ∧ 0 ≤ defaultConfig.randomnessConfig.maxBoost ∧
      (ScoringService.calculateScore
          { defaultConfig with
              randomnessConfig := { defaultConfig.randomnessConfig with enabled := false } }
          (1/2) (Patient.mk "p3" "Pat" ⟨0, 0⟩ 45 2 3 600) ⟨0, 0⟩).score ≤
        (ScoringService.calculateScore
          { defaultConfig with
              randomnessConfig := { defaultConfig.randomnessConfig with enabled := true } }
          (1/2) (Patient.mk "p3" "Pat" ⟨0, 0⟩ 45 2 3 600) ⟨0, 0⟩).score :=
  ⟨by norm_num, by norm_num, by norm_num [defaultConfig],
    C10_boost_never_lowers_score defaultConfig (1/2) _ _ (by norm_num) (by norm_num)
      (by norm_num [defaultConfig])⟩

/-! ### Distance calculator lemmas -/

namespace DistanceCalculator

lemma toRadians_sub (a b : ℝ) : toRadians (a - b) = toRadians a - toRadians b := by
  unfold toRadians
  ring

lemma sin_half_sq (t : ℝ) : Real.sin (t/2) * Real.sin (t/2) = (1 - Real.cos t)/2 := by
  have h := Real.sin_sq_eq_half_sub (t/2)
  have h2 : 2 * (t/2) = t := by ring
  rw [h2] at h
  rw [← pow_two (Real.sin (t/2)), h]
  ring

/-- The haversine intermediate value rewritten through the spherical law of
cosines: `a = (1 - cos(central angle)) / 2`. -/
lemma haverA_eq (p1 p2 : Location) :
    haverA p1 p2 =
      (1 - (Real.sin (toRadians p1.latitude) * Real.sin (toRadians p2.latitude) +
        Real.cos (toRadians p1.latitude) * Real.cos (toRadians p2.latitude) *
          Real.cos (toRadians p2.longitude - toRadians p1.longitude))) / 2 := by
  simp only [haverA, toRadians_sub, sin_half_sq]
  rw [Real.cos_sub]
  ring

lemma trig_sum_bounds (x y t : ℝ) (h1 : -1 ≤ t) (h2 : t ≤ 1) :
    -1 ≤ Real.sin x * Real.sin y + Real.cos x * Real.cos y * t ∧
      Real.sin x * Real.sin y + Real.cos x * Real.cos y * t ≤ 1 := by
  have hA : Real.cos x * Real.cos y + Real.sin x * Real.sin y ≤ 1 := by
    rw [← Real.cos_sub]
    exact Real.cos_le_one _
  have hA2 : -1 ≤ Real.cos x * Real.cos y + Real.sin x * Real.sin y := by
    rw [← Real.cos_sub]
    exact Real.neg_one_le_cos _
  have hB : Real.cos x * Real.cos y - Real.sin x * Real.sin y ≤ 1 := by
    rw [← Real.cos_add]
    exact Real.cos_le_one _
  have hB2 : -1 ≤ Real.cos x * Real.cos y - Real.sin x * Real.sin y := by
    rw [← Real.cos_add]
    exact Real.neg_one_le_cos _
  constructor
  · nlinarith [mul_nonneg (by linarith : (0:ℝ) ≤ 1 + t)
      (by linarith : (0:ℝ) ≤ 1 + (Real.cos x * Real.cos y + Real.sin x * Real.sin y)),
      mul_nonneg (by linarith : (0:ℝ) ≤ 1 - t)
      (by linarith : (0:ℝ) ≤ 1 + (Real.sin x * Real.sin y - Real.cos x * Real.cos y))]
  · nlinarith [mul_nonneg (by linarith : (0:ℝ) ≤ 1 + t)
      (by linarith : (0:ℝ) ≤ 1 - (Real.cos x * Real.cos y + Real.sin x * Real.sin y)),
      mul_nonneg (by linarith : (0:ℝ) ≤ 1 - t)
      (by linarith : (0:ℝ) ≤ 1 - (Real.cos x * Real.cos y - Real.sin x * Real.sin y))]

/-- For every pair of coordinates, in or out of range, the haversine
intermediate value is non-negative, so `Math.sqrt(a)` never sees a negative
argument in exact arithmetic. -/
lemma haverA_nonneg (p1 p2 : Location) : 0 ≤ haverA p1 p2 := by
  rw [haverA_eq]
  have h := trig_sum_bounds (toRadians p1.latitude) (toRadians p2.latitude)
    (Real.cos (toRadians p2.longitude - toRadians p1.longitude))
    (Real.neg_one_le_cos _) (Real.cos_le_one _)
  linarith [h.2]

/-- Likewise `a ≤ 1`, so `Math.sqrt(1 - a)` never sees a negative argument. -/
lemma haverA_le_one (p1 p2 : Location) : haverA p1 p2 ≤ 1 := by
  rw [haverA_eq]
  have h := trig_sum_bounds (toRadians p1.latitude) (toRadians p2.latitude)
    (Real.cos (toRadians p2.longitude - toRadians p1.longitude))
    (Real.neg_one_le_cos _) (Real.cos_le_one _)
  linarith [h.1]

lemma arctan_nonneg2 {q : ℝ} (hq : 0 ≤ q) : 0 ≤ Real.arctan q := by
  have h := Real.arctan_strictMono.monotone hq
  rwa [Real.arctan_zero] at h

lemma atan2_nonneg {y x : ℝ} (hy : 0 ≤ y) (hx : 0 ≤ x) : 0 ≤ atan2 y x := by
  unfold atan2
  split_ifs with h1 h2 h3 h4
  · exact arctan_nonneg2 (div_nonneg hy h1.le)
  all_goals linarith [Real.pi_pos]

/-- The NaN-tracking haversine always succeeds and agrees with the total one. -/
lemma calculateChk_eq (p1 p2 : Location) :
    calculateChk p1 p2 = some (calculate p1 p2) := by
  have h0 := haverA_nonneg p1 p2
  have h1 := haverA_le_one p1 p2
  simp only [calculateChk, calculate, chkSqrt]
  rw [if_neg (not_lt.mpr h0), if_neg (not_lt.mpr (by linarith : (0:ℝ) ≤ 1 - haverA p1 p2))]

lemma calculate_nonneg (p1 p2 : Location) : 0 ≤ calculate p1 p2 := by
  have h := atan2_nonneg (Real.sqrt_nonneg (haverA p1 p2))
    (Real.sqrt_nonneg (1 - haverA p1 p2))
  simp only [calculate]
  have hE : (0:ℝ) ≤ EARTH_RADIUS_KM := by norm_num [EARTH_RADIUS_KM]
  exact mul_nonneg hE (by linarith)

lemma calculate_self (a : Location) : calculate a a = 0 := by
  norm_num [calculate, haverA, toRadians, atan2, Real.arctan_zero]

lemma haverA_comm (p1 p2 : Location) : haverA p1 p2 = haverA p2 p1 := by
  rw [haverA_eq, haverA_eq]
  rw [show toRadians p1.longitude - toRadians p2.longitude =
    -(toRadians p2.longitude - toRadians p1.longitude) by ring, Real.cos_neg]
  ring

lemma calculate_comm (p1 p2 : Location) : calculate p1 p2 = calculate p2 p1 := by
  simp only [calculate, haverA_comm p1 p2]

end DistanceCalculator

/-- C2: for every candidate list of N patients and facility coordinate,
`GetPrioritizedPatients.execute` returns exactly `min(N,10)` entries, ordered
with non-increasing `score` values, and the empty candidate set yields the
empty list rather than an error. -/
theorem C2_execute_sorted_top_ten (config : ScoringConfig) (rs : ℕ → ℝ)
    (patients : List Patient) (fac : Location) :
    (GetPrioritizedPatients.execute config rs patients fac).length = min patients.length 10 ∧
      (GetPrioritizedPatients.execute config rs patients fac).Pairwise
        (fun a b => b.score ≤ a.score) ∧
      GetPrioritizedPatients.execute config rs [] fac = [] := by
  refine ⟨?_, ?_, ?_⟩
  · simp [GetPrioritizedPatients.execute, List.length_take, Nat.min_comm]
  · have hs := @List.sorted_mergeSort ScoredPatient
      (fun a b : ScoredPatient => decide (b.score ≤ a.score))
      (fun a b c hab hbc => by
        simp only [decide_eq_true_eq] at *
        exact le_trans hbc hab)
      (fun a b => by
        simp only [Bool.or_eq_true, decide_eq_true_eq]
        exact le_total b.score a.score)
      (patients.mapIdx fun i p => ScoringService.calculateScore config (rs i) p fac)
    have hp : (((patients.mapIdx fun i p =>
        ScoringService.calculateScore config (rs i) p fac).mergeSort
          fun a b => decide (b.score ≤ a.score)).take 10).Pairwise
        (fun a b : ScoredPatient => b.score ≤ a.score) := by
      refine List.Pairwise.sublist (List.take_sublist 10 _) (hs.imp ?_)
      intro a b h
      simpa using h
    simp only [GetPrioritizedPatients.execute]
    exact hp.map GetPrioritizedPatients.toDTO (fun a b h => h)
  · simp [GetPrioritizedPatients.execute]

/-- C4, failing input: a structurally valid patient (all numeric fields
non-negative) of age 300 colocated with the facility receives a reported
`demographicScore` of -0.07, violating the claimed invariant
`0 ≤ demographicScore`: `calculateAgeScore` is unbounded below for ages above
65 despite its documented 6-10 range. -/
theorem C4_demographic_score_negative_for_age_300 :
    (ScoringService.calculateScore defaultConfig 0
        (Patient.mk "p4" "Old" ⟨0, 0⟩ 300 0 0 0) ⟨0, 0⟩).demographicScore < 0 := by
  have hd : DistanceCalculator.calculate ⟨0, 0⟩ ⟨0, 0⟩ = 0 :=
    DistanceCalculator.calculate_self _
  norm_num [ScoringService.calculateScore, ScoringService.calculateAgeScore,
    ScoringService.calculateDistanceScore, hd, defaultConfig,
    ScoringService.round2, round_eq]

/-- C5, counterexample to the claim as stated: the coordinate (200, 0) has an
out-of-range latitude (200 > 90), yet `calculate` applied to it twice returns
the defined, finite value 0 — not NaN. -/
theorem C5_out_of_range_input_not_nan :
    (90:ℝ) < 200 ∧
      DistanceCalculator.calculateChk ⟨200, 0⟩ ⟨200, 0⟩ = some 0 := by
  refine ⟨by norm_num, ?_⟩
  rw [DistanceCalculator.calculateChk_eq, DistanceCalculator.calculate_self]

/-- C5, amended: `DistanceCalculator.calculate` never raises an error for any
numeric inputs — in exact arithmetic it always returns a defined non-negative
number (the NaN-tracking model never produces NaN, in or out of coordinate
range, because the haversine intermediate value always lies in [0,1]). -/
theorem C5_calculate_total_and_nonneg (p1 p2 : Location) :
    DistanceCalculator.calculateChk p1 p2 = some (DistanceCalculator.calculate p1 p2) ∧
      0 ≤ DistanceCalculator.calculate p1 p2 :=
  ⟨DistanceCalculator.calculateChk_eq p1 p2, DistanceCalculator.calculate_nonneg p1 p2⟩

/-- C6: the haversine distance is zero on identical points and commutative in
its two arguments. -/
theorem C6_distance_zero_self_and_commutative (a b : Location) :
    DistanceCalculator.calculate a a = 0 ∧
      DistanceCalculator.calculate a b = DistanceCalculator.calculate b a :=
  ⟨DistanceCalculator.calculate_self a, DistanceCalculator.calculate_comm a b⟩

/-- C7: under the default config, a patient with 0 accepted offers, 100
canceled offers and a 7200-second average reply time gets a reported
behavioral score below 5 and a final score below 5, for any age, location,
facility and random draw (100 interactions exceed the low-data threshold, so
no boost applies). -/
theorem C7_heavy_canceler_below_five (r : ℝ) (pid pname : String) (loc : Location)
    (age : ℝ) (fac : Location) :
    (ScoringService.calculateScore defaultConfig r
        (Patient.mk pid pname loc age 0 100 7200) fac).behavioralScore < 5 ∧
      (ScoringService.calculateScore defaultConfig r
        (Patient.mk pid pname loc age 0 100 7200) fac).score < 5 := by
  have hage := ScoringService.calculateAgeScore_le_ten age
  have hdist := (ScoringService.calculateDistanceScore_bounds
      (DistanceCalculator.calculate loc fac)).2
  norm_num [ScoringService.calculateScore, ScoringService.calculateAcceptanceRateScore,
    ScoringService.calculateResponseTimeScore, ScoringService.applyRandomnessBoost,
    defaultConfig]
  constructor
  · norm_num [ScoringService.round2, round_eq]
  · have hE : ScoringService.calculateAgeScore age * (1/10) +
        ScoringService.calculateDistanceScore (DistanceCalculator.calculate loc fac) * (1/10) +
        2/5 ≤ 12/5 := by linarith
    have hclamp : (1:ℝ) ⊔ (10 ⊓ (ScoringService.calculateAgeScore age * (1/10) +
        ScoringService.calculateDistanceScore (DistanceCalculator.calculate loc fac) * (1/10) +
        2/5)) ≤ 12/5 := sup_le (by norm_num) (le_trans inf_le_right hE)
    have hmono := ScoringService.round2_le_round2 hclamp
    have heval : ScoringService.round2 (12/5) = 12/5 := by
      norm_num [ScoringService.round2, round_eq]
    linarith

/-- C9: neither `calculateScore` nor `execute` mutates patient data: the
returned `ScoredPatient` carries exactly the input patient's seven fields, and
threading the repository state through `execute` (whose `findAll` hands out a
copy) leaves the stored list unchanged. -/
theorem C9_no_patient_mutation :
    (∀ (config : ScoringConfig) (r : ℝ) (p : Patient) (fac : Location),
        (ScoringService.calculateScore config r p fac).id = p.id ∧
          (ScoringService.calculateScore config r p fac).name = p.name ∧
          (ScoringService.calculateScore config r p fac).location = p.location ∧
          (ScoringService.calculateScore config r p fac).age = p.age ∧
          (ScoringService.calculateScore config r p fac).acceptedOffers = p.acceptedOffers ∧
          (ScoringService.calculateScore config r p fac).canceledOffers = p.canceledOffers ∧
          (ScoringService.calculateScore config r p fac).averageReplyTime =
            p.averageReplyTime) ∧
      ∀ (config : ScoringConfig) (rs : ℕ → ℝ) (state : List Patient) (fac : Location),
        (GetPrioritizedPatients.executeSt config rs state fac).1 = state :=
  ⟨fun _ _ _ _ => ⟨rfl, rfl, rfl, rfl, rfl, rfl, rfl⟩,
    fun _ _ _ _ => rfl⟩
